import Mathlib

/-!
Verification development for the DGL node-classification notebook
(`src/basic_tasks/Node_classification.ipynb`).

The notebook assembles a GraphSage model (`GraphSAGEModel`) from DGL
`SAGEConv` layers, wraps it in a classification head (`NodeClassification`)
trained with cross-entropy, evaluates it with `NCEvaluate`, and runs a
fixed-epoch training loop.  The glue code of the notebook is embedded
directly; the behaviour of the external collaborators it calls
(DGL's `SAGEConv` forward computation, `torch.nn.CrossEntropyLoss`,
`torch.max`, the Adam optimizer and autodiff) is modelled from the
specification, as marked on each such definition.

Scalars are modelled as elements of a linear ordered field (`ℚ` for the
executable parts, `ℝ` where the loss needs `exp`/`log`), ignoring
floating-point rounding.
-/

/-- Nonlinearity value passed to a layer; the notebook passes `F.relu`. -/
inductive Activation
  | relu
deriving DecidableEq

/-- Aggregator selector of `SAGEConv`; the notebook sets `aggregator_type = 'gcn'`. -/
inductive AggregatorType
  | gcn
deriving DecidableEq

/-- Mode flag: `model.train()` versus `model.eval()` of the notebook. -/
inductive Mode
  | train
  | eval
deriving DecidableEq

/-- Read-only graph store: node count and, per node, the list of neighbor
indices.  The notebook's `DGLGraph` is read-only after construction. -/
structure Graph where
  numNodes : Nat
  neighbors : Nat → List Nat

/-- Configuration of one `SAGEConv` layer exactly as the notebook's
`GraphSAGEModel.__init__` constructs it: input width, output width,
aggregator, `feat_drop` probability and the optional activation. -/
structure SAGEConv (α : Type) where
  in_feats : Nat
  out_feats : Nat
  aggregator : AggregatorType
  feat_drop : α
  activation : Option Activation
deriving DecidableEq

/-- Learned parameters of one aggregation layer: a weight matrix (row
index = output coordinate, column index = input coordinate) and a bias
vector.  They are initialized by the library at construction. -/
structure LayerParams (α : Type) where
  weight : Nat → Nat → α
  bias : Nat → α

/-- Embedding of `GraphSAGEModel.__init__` (notebook cell defining the model):
it appends one input layer `SAGEConv(in_feats, n_hidden, agg, feat_drop=dropout,
activation=activation)`, then `n_layers - 1` hidden layers
`SAGEConv(n_hidden, n_hidden, ...)` with the same dropout and activation, then
one output layer `SAGEConv(n_hidden, out_dim, agg, feat_drop=dropout,
activation=None)`. -/
def GraphSAGEModel {α : Type} (in_feats n_hidden out_dim n_layers : Nat)
    (activation : Activation) (dropout : α) (aggregator_type : AggregatorType) :
    List (SAGEConv α) :=
  [⟨in_feats, n_hidden, aggregator_type, dropout, some activation⟩]
    ++ List.replicate (n_layers - 1)
        ⟨n_hidden, n_hidden, aggregator_type, dropout, some activation⟩
    ++ [⟨n_hidden, out_dim, aggregator_type, dropout, none⟩]

section ModelDefs

variable {α : Type} [LinearOrderedField α]

/-- Modelled from the spec: dropout on the input features of a layer
(DGL `SAGEConv`'s `feat_drop`, whose implementation is not in the
repository).  The spec states dropout is "applied to the input features
during training only (disabled at evaluation time)".  In training mode an
entry is zeroed when its uniform random draw falls below the drop
probability `p`, and kept entries are rescaled by `1 / (1 - p)`. -/
def featDropout (mode : Mode) (p : α) (rand : Nat → Nat → α)
    (h : Nat → Nat → α) : Nat → Nat → α :=
  match mode with
  | Mode.eval => h
  | Mode.train => fun v j => if rand v j < p then 0 else h v j / (1 - p)

/-- Sum of the neighbor embeddings of node `v` at coordinate `j`: the
aggregate over the direct neighbors only, before any self-combination. -/
def neighborSum (g : Graph) (h : Nat → Nat → α) (v j : Nat) : α :=
  ((g.neighbors v).map fun u => h u j).sum

/-- Modelled from the spec: the notebook's `'gcn'`-style aggregate
(DGL `SAGEConv` internals are not in the repository).  The spec states it
"additionally folds v's own embedding into the neighbor set before
averaging": the neighbor sum plus the node's own embedding, divided by
(degree + 1). -/
def gcnAggregate (g : Graph) (h : Nat → Nat → α) (v j : Nat) : α :=
  (neighborSum g h v j + h v j) / (((g.neighbors v).length : α) + 1)

/-- Optional nonlinearity applied to a layer output entry. -/
def applyActivation (a : Option Activation) (x : α) : α :=
  match a with
  | none => x
  | some Activation.relu => max x 0

/-- Modelled from the spec: the forward computation of one `SAGEConv` layer
with the `'gcn'` aggregator (DGL internals are not in the repository).
Dropout is applied to the input features, the gcn aggregate is formed,
and a learned linear transform plus bias and the optional nonlinearity
produce each output entry. -/
def SAGEConv.forward (mode : Mode) (rand : Nat → Nat → α) (L : SAGEConv α)
    (P : LayerParams α) (g : Graph) (h : Nat → Nat → α) : Nat → Nat → α :=
  let h' := featDropout mode L.feat_drop rand h
  fun v j =>
    applyActivation L.activation
      (P.bias j + (Finset.range L.in_feats).sum fun k =>
        P.weight j k * gcnAggregate g h' v k)

/-- Embedding of `GraphSAGEModel.forward`: fold the layers over the input
feature table (`h = features; for layer in self.layers: h = layer(g, h)`).
Each layer consumes its own slice of the dropout randomness. -/
def GraphSAGEModel.forward (mode : Mode) (rands : Nat → Nat → Nat → α) :
    List (SAGEConv α × LayerParams α) → Graph → (Nat → Nat → α) → Nat → Nat → α
  | [], _, h => h
  | LP :: rest, g, h =>
      GraphSAGEModel.forward mode (fun i => rands (i + 1)) rest g
        (SAGEConv.forward mode (rands 0) LP.1 LP.2 g h)

end ModelDefs

section EvalDefs

variable {α : Type} [LinearOrderedField α]

/-- Modelled from the spec: the index kept by `torch.max(..., dim=1)` after
scanning the entries `0, 1, ..., n` of one score row (the torch kernel is
not in the repository).  The running best index is replaced only on a
strictly larger score, so ties keep the lower index. -/
def argmaxUpTo (row : Nat → α) : Nat → Nat
  | 0 => 0
  | n + 1 =>
      let b := argmaxUpTo row n
      if row b < row (n + 1) then n + 1 else b

/-- Arg-max over the classes `0, ..., numClasses - 1` of one score row, as
`torch.max(logits, dim=1)` computes it. -/
def torchArgmax (row : Nat → α) (numClasses : Nat) : Nat :=
  argmaxUpTo row (numClasses - 1)

/-- Embedding of `NCEvaluate`: run the embedding stack in evaluation mode,
restrict the logits and labels to `test_idx`, take the per-row arg-max,
count agreements with the labels and divide by the subset size. -/
def NCEvaluate (layers : List (SAGEConv α × LayerParams α)) (g : Graph)
    (features : Nat → Nat → α) (labels : Nat → Nat) (test_idx : List Nat)
    (numClasses : Nat) : α :=
  let logits := GraphSAGEModel.forward Mode.eval (fun _ _ _ => 0) layers g features
  let indices := test_idx.map fun i => torchArgmax (logits i) numClasses
  let test_labels := test_idx.map labels
  let correct := ((indices.zip test_labels).map
    fun p => if p.1 = p.2 then (1 : α) else 0).sum
  correct / (test_labels.length : α)

end EvalDefs

/-- Modelled from the spec: `torch.nn.CrossEntropyLoss()` with its default
mean reduction (the torch kernel is not in the repository).  The spec gives
the formula: mean over the batch of
`-score[i, label[i]] + log (sum over classes c of exp score[i, c])`. -/
noncomputable def CrossEntropyLoss (numClasses : Nat) (rows : List (Nat → ℝ))
    (targets : List Nat) : ℝ :=
  ((rows.zip targets).map fun rt =>
      -(rt.1 rt.2) +
        Real.log ((Finset.range numClasses).sum fun c => Real.exp (rt.1 c))).sum
    / (rows.length : ℝ)

/-- Embedding of `NodeClassification.forward`: compute the logits with the
GraphSage stack, restrict logits and labels to `train_idx` and apply the
cross-entropy loss. -/
noncomputable def NodeClassification.forward (mode : Mode)
    (rands : Nat → Nat → Nat → ℝ) (layers : List (SAGEConv ℝ × LayerParams ℝ))
    (g : Graph) (features : Nat → Nat → ℝ) (labels : Nat → Nat)
    (train_idx : List Nat) (numClasses : Nat) : ℝ :=
  let logits := GraphSAGEModel.forward mode rands layers g features
  CrossEntropyLoss numClasses (train_idx.map logits) (train_idx.map labels)

/-- Error kind of the specification's error-handling design. -/
inductive NCError
  | EmptySubset
deriving DecidableEq

/-- Modelled from the spec: the contract "requires |subset| ≥ 1; fails with
EmptySubset otherwise" for the loss computation.  The abort-and-surface
behaviour on an empty subset is delegated to the external collaborators,
so it is modelled from the specification's words. -/
noncomputable def NodeClassificationForwardE (mode : Mode)
    (rands : Nat → Nat → Nat → ℝ) (layers : List (SAGEConv ℝ × LayerParams ℝ))
    (g : Graph) (features : Nat → Nat → ℝ) (labels : Nat → Nat)
    (train_idx : List Nat) (numClasses : Nat) : Except NCError ℝ :=
  if train_idx = [] then Except.error NCError.EmptySubset
  else Except.ok
    (NodeClassification.forward mode rands layers g features labels train_idx numClasses)

section LoopDefs

variable {α : Type} [LinearOrderedField α]

/-- Modelled from the spec: the contract "requires |subset| ≥ 1; fails with
EmptySubset otherwise" for the evaluation, delegated as for the loss. -/
def NCEvaluateE (layers : List (SAGEConv α × LayerParams α)) (g : Graph)
    (features : Nat → Nat → α) (labels : Nat → Nat) (test_idx : List Nat)
    (numClasses : Nat) : Except NCError α :=
  if test_idx = [] then Except.error NCError.EmptySubset
  else Except.ok (NCEvaluate layers g features labels test_idx numClasses)

/-- Events of the notebook's training loop, in the order they are performed. -/
inductive LoopEvent
  | trainStep (epoch : Nat)
  | validateStep (epoch : Nat)
  | testEval
deriving DecidableEq

/-- Mutable state of a run: the learnable parameters of every layer. -/
structure ModelState (α : Type) where
  params : List (SAGEConv α × LayerParams α)

/-- State-passing form of `NCEvaluate`: it reads the parameters and returns
the accuracy together with the state, which it leaves untouched
(the notebook computes it under `model.eval()` and `torch.no_grad()`,
with no assignment to any parameter). -/
def NCEvaluateSt (g : Graph) (features : Nat → Nat → α) (labels : Nat → Nat)
    (idx : List Nat) (numClasses : Nat) (s : ModelState α) : α × ModelState α :=
  (NCEvaluate s.params g features labels idx numClasses, s)

/-- Embedding of the notebook's epoch loop (`for epoch in range(n_epochs)`).
Each iteration performs one train step — forward loss on the train subset,
`backward()` and one `optimizer.step()`, collapsed into `optStep` because
autodiff and Adam are external collaborators modelled from the spec — and
then one validation-accuracy computation on the validation subset.  The
first component is the trace of performed events, the second the final
state. -/
def trainingEpochs (optStep : ModelState α → ModelState α) (g : Graph)
    (features : Nat → Nat → α) (labels : Nat → Nat) (val_idx : List Nat)
    (numClasses : Nat) : Nat → Nat → ModelState α → List LoopEvent × ModelState α
  | 0, _, s => ([], s)
  | k + 1, epoch, s =>
      let s1 := optStep s
      let vres := NCEvaluateSt g features labels val_idx numClasses s1
      let rest := trainingEpochs optStep g features labels val_idx numClasses k
        (epoch + 1) vres.2
      (LoopEvent.trainStep epoch :: LoopEvent.validateStep epoch :: rest.1, rest.2)

/-- Embedding of the whole training cell: run `n_epochs` epochs starting at
epoch `0`, then perform the single final accuracy computation on the test
subset.  Returns the event trace, the final test accuracy and the final
state. -/
def trainingRun (optStep : ModelState α → ModelState α) (g : Graph)
    (features : Nat → Nat → α) (labels : Nat → Nat)
    (val_idx test_idx : List Nat) (numClasses : Nat) (n_epochs : Nat)
    (s0 : ModelState α) : List LoopEvent × α × ModelState α :=
  let r := trainingEpochs optStep g features labels val_idx numClasses n_epochs 0 s0
  let tres := NCEvaluateSt g features labels test_idx numClasses r.2
  (r.1 ++ [LoopEvent.testEval], tres.1, tres.2)

end LoopDefs

section StackLemmas

variable {α : Type}
variable (nfeat nhid nout nl : Nat) (act : Activation) (dp : α) (ag : AggregatorType)

theorem GraphSAGEModel_length :
    (GraphSAGEModel nfeat nhid nout nl act dp ag).length = (nl - 1) + 2 := by
  simp [GraphSAGEModel]

theorem GraphSAGEModel_get (i : Nat)
    (h : i < (GraphSAGEModel nfeat nhid nout nl act dp ag).length) :
    (GraphSAGEModel nfeat nhid nout nl act dp ag).get ⟨i, h⟩ =
      if i = 0 then ⟨nfeat, nhid, ag, dp, some act⟩
      else if i ≤ nl - 1 then ⟨nhid, nhid, ag, dp, some act⟩
      else ⟨nhid, nout, ag, dp, none⟩ := by
  unfold GraphSAGEModel at h ⊢
  match i with
  | 0 => simp
  | n + 1 =>
      simp only [List.cons_append, List.nil_append, List.get_eq_getElem,
        List.getElem_cons_succ]
      have hn : n < (nl - 1) + 1 := by
        simp only [List.cons_append, List.nil_append, List.length_cons,
          List.length_append, List.length_replicate, List.length_nil] at h
        omega
      by_cases hlt : n < nl - 1
      · rw [List.getElem_append_left (by simpa using hlt)]
        have h1 : n + 1 ≤ nl - 1 := hlt
        simp [h1]
      · have heq : n = nl - 1 := by omega
        rw [List.getElem_append_right (by simpa using hlt)]
        have h2 : ¬ (n + 1 ≤ nl - 1) := by omega
        simp [h2, heq]

theorem GraphSAGEModel_get_in_feats (i : Nat)
    (h : i < (GraphSAGEModel nfeat nhid nout nl act dp ag).length) :
    ((GraphSAGEModel nfeat nhid nout nl act dp ag).get ⟨i, h⟩).in_feats =
      if i = 0 then nfeat else nhid := by
  rw [GraphSAGEModel_get]
  by_cases h0 : i = 0
  · simp [h0]
  · by_cases h1 : i ≤ nl - 1 <;> simp [h0, h1]

theorem GraphSAGEModel_get_out_feats (i : Nat)
    (h : i < (GraphSAGEModel nfeat nhid nout nl act dp ag).length) :
    ((GraphSAGEModel nfeat nhid nout nl act dp ag).get ⟨i, h⟩).out_feats =
      if i ≤ nl - 1 then nhid else nout := by
  rw [GraphSAGEModel_get]
  by_cases h0 : i = 0
  · have h1 : i ≤ nl - 1 := by omega
    simp [h0, h1]
  · by_cases h1 : i ≤ nl - 1 <;> simp [h0, h1]

theorem GraphSAGEModel_get_activation (i : Nat)
    (h : i < (GraphSAGEModel nfeat nhid nout nl act dp ag).length) :
    ((GraphSAGEModel nfeat nhid nout nl act dp ag).get ⟨i, h⟩).activation =
      if i ≤ nl - 1 then some act else none := by
  rw [GraphSAGEModel_get]
  by_cases h0 : i = 0
  · have h1 : i ≤ nl - 1 := by omega
    simp [h0, h1]
  · by_cases h1 : i ≤ nl - 1 <;> simp [h0, h1]

theorem GraphSAGEModel_get_feat_drop (i : Nat)
    (h : i < (GraphSAGEModel nfeat nhid nout nl act dp ag).length) :
    ((GraphSAGEModel nfeat nhid nout nl act dp ag).get ⟨i, h⟩).feat_drop = dp := by
  rw [GraphSAGEModel_get]
  by_cases h0 : i = 0
  · simp [h0]
  · by_cases h1 : i ≤ nl - 1 <;> simp [h0, h1]

end StackLemmas

section ArgmaxLemmas

variable {α : Type} [LinearOrderedField α] (row : Nat → α)

theorem argmaxUpTo_le (n : Nat) : argmaxUpTo row n ≤ n := by
  induction n with
  | zero => simp [argmaxUpTo]
  | succ n ih =>
      simp only [argmaxUpTo]
      split
      · exact Nat.le_refl _
      · exact Nat.le_succ_of_le ih

theorem le_argmaxUpTo (n : Nat) : ∀ c ≤ n, row c ≤ row (argmaxUpTo row n) := by
  induction n with
  | zero =>
      intro c hc
      have : c = 0 := Nat.le_zero.mp hc
      simp [this, argmaxUpTo]
  | succ n ih =>
      intro c hc
      simp only [argmaxUpTo]
      split
      · rename_i hlt
        rcases Nat.le_succ_iff.mp hc with hcn | hce
        · exact le_of_lt (lt_of_le_of_lt (ih c hcn) hlt)
        · simp [hce]
      · rename_i hge
        rcases Nat.le_succ_iff.mp hc with hcn | hce
        · exact ih c hcn
        · subst hce
          exact not_lt.mp hge

theorem argmaxUpTo_first (n : Nat) :
    ∀ c < argmaxUpTo row n, row c < row (argmaxUpTo row n) := by
  induction n with
  | zero =>
      intro c hc
      simp [argmaxUpTo] at hc
  | succ n ih =>
      intro c hc
      simp only [argmaxUpTo] at hc ⊢
      split
      · rename_i hlt
        simp only [argmaxUpTo] at *
        rw [if_pos hlt] at hc
        exact lt_of_le_of_lt (le_argmaxUpTo row n c (by omega)) hlt
      · rename_i hge
        rw [if_neg hge] at hc
        exact ih c hc

end ArgmaxLemmas

theorem sum_indicator_eq_countP {α : Type} [LinearOrderedField α]
    (l : List (Nat × Nat)) :
    ((l.map fun p => if p.1 = p.2 then (1 : α) else 0).sum) =
      ((l.countP fun p => decide (p.1 = p.2) : Nat) : α) := by
  induction l with
  | nil => simp
  | cons a l ih =>
      simp only [List.map_cons, List.sum_cons, List.countP_cons, ih]
      by_cases h : a.1 = a.2
      · simp [h]
        ring
      · simp [h]

section LoopLemmas

variable {α : Type} [LinearOrderedField α]
variable (optStep : ModelState α → ModelState α) (g : Graph)
variable (features : Nat → Nat → α) (labels : Nat → Nat)
variable (val_idx : List Nat) (numClasses : Nat)

theorem trainingEpochs_trace (k : Nat) :
    ∀ (epoch : Nat) (s : ModelState α),
      (trainingEpochs optStep g features labels val_idx numClasses k epoch s).1 =
        ((List.range' epoch k).map
          fun j => [LoopEvent.trainStep j, LoopEvent.validateStep j]).flatten := by
  induction k with
  | zero => intro epoch s; simp [trainingEpochs]
  | succ k ih =>
      intro epoch s
      rw [List.range'_succ]
      simp only [trainingEpochs, List.map_cons, List.flatten_cons, ih]
      rfl

theorem trainingEpochs_state (k : Nat) :
    ∀ (epoch : Nat) (s : ModelState α),
      (trainingEpochs optStep g features labels val_idx numClasses k epoch s).2 =
        optStep^[k] s := by
  induction k with
  | zero => intro epoch s; simp [trainingEpochs]
  | succ k ih =>
      intro epoch s
      simp only [trainingEpochs, NCEvaluateSt, ih]
      exact (Function.iterate_succ_apply optStep k s).symm

end LoopLemmas

/-- C10: for every `n_layers ≥ 1`, the constructor of `GraphSAGEModel` builds
exactly `n_layers + 1` aggregation layers (one input layer, `n_layers - 1`
hidden layers and one output layer); in particular the notebook's model with
`n_layers = 2` applies `3` aggregation layers. -/
theorem claim_C10 (nfeat nhid nout nl : Nat) (act : Activation) (dp : ℚ)
    (ag : AggregatorType) (hn : 1 ≤ nl) :
    (GraphSAGEModel nfeat nhid nout nl act dp ag).length = nl + 1 := by
  rw [GraphSAGEModel_length]
  omega

/-- Witness for C10 at the notebook's configuration `n_layers = 2`: the
stack has `3` layers. -/
theorem claim_C10_witness :
    (GraphSAGEModel 500 64 3 2 Activation.relu ((1 : ℚ)/2)
      AggregatorType.gcn).length = 2 + 1 :=
  claim_C10 500 64 3 2 Activation.relu ((1 : ℚ)/2) AggregatorType.gcn (by norm_num)

/-- C9: for every configuration with `n_layers ≥ 1`, the constructed stack
satisfies the width-compatibility invariant: the first layer's input width
is `in_feats`, the last layer's output width is `out_dim`, and every
consecutive pair of layers has matching output/input widths. -/
theorem claim_C9 (nfeat nhid nout nl : Nat) (act : Activation) (dp : ℚ)
    (ag : AggregatorType) (_hn : 1 ≤ nl) :
    (∀ (h0 : 0 < (GraphSAGEModel nfeat nhid nout nl act dp ag).length),
        ((GraphSAGEModel nfeat nhid nout nl act dp ag).get ⟨0, h0⟩).in_feats = nfeat)
    ∧ ((GraphSAGEModel nfeat nhid nout nl act dp ag).getLast?.map SAGEConv.out_feats
        = some nout)
    ∧ ∀ (i : Nat) (h1 : i < (GraphSAGEModel nfeat nhid nout nl act dp ag).length)
        (h2 : i + 1 < (GraphSAGEModel nfeat nhid nout nl act dp ag).length),
        ((GraphSAGEModel nfeat nhid nout nl act dp ag).get ⟨i, h1⟩).out_feats
          = ((GraphSAGEModel nfeat nhid nout nl act dp ag).get ⟨i + 1, h2⟩).in_feats := by
  have hL := GraphSAGEModel_length nfeat nhid nout nl act dp ag (α := ℚ)
  refine ⟨?_, ?_, ?_⟩
  · intro h0
    rw [GraphSAGEModel_get_in_feats]
    simp
  · simp only [GraphSAGEModel]
    rw [List.getLast?_concat]
    rfl
  · intro i h1 h2
    have h2' : i + 1 < (nl - 1) + 2 := by rw [hL] at h2; exact h2
    rw [GraphSAGEModel_get_out_feats, GraphSAGEModel_get_in_feats]
    rw [if_pos (by omega : i ≤ nl - 1), if_neg (by omega : ¬ i + 1 = 0)]

/-- Witness for C9 at the notebook's configuration: `in_feats = 500`,
`n_hidden = 64`, `out_dim = 3`, `n_layers = 2`. -/
theorem claim_C9_witness :
    (∀ (h0 : 0 < (GraphSAGEModel 500 64 3 2 Activation.relu ((1 : ℚ)/2)
        AggregatorType.gcn).length),
        ((GraphSAGEModel 500 64 3 2 Activation.relu ((1 : ℚ)/2)
          AggregatorType.gcn).get ⟨0, h0⟩).in_feats = 500)
    ∧ ((GraphSAGEModel 500 64 3 2 Activation.relu ((1 : ℚ)/2)
        AggregatorType.gcn).getLast?.map SAGEConv.out_feats = some 3)
    ∧ ∀ (i : Nat) (h1 : i < (GraphSAGEModel 500 64 3 2 Activation.relu ((1 : ℚ)/2)
        AggregatorType.gcn).length)
        (h2 : i + 1 < (GraphSAGEModel 500 64 3 2 Activation.relu ((1 : ℚ)/2)
          AggregatorType.gcn).length),
        ((GraphSAGEModel 500 64 3 2 Activation.relu ((1 : ℚ)/2)
          AggregatorType.gcn).get ⟨i, h1⟩).out_feats
          = ((GraphSAGEModel 500 64 3 2 Activation.relu ((1 : ℚ)/2)
            AggregatorType.gcn).get ⟨i + 1, h2⟩).in_feats :=
  claim_C9 500 64 3 2 Activation.relu ((1 : ℚ)/2) AggregatorType.gcn (by norm_num)

/-- Counterexample to C2 as stated: in the notebook's model construction the
output layer is built with `feat_drop = dropout` (only `activation` is set
to `None`), so at the notebook's configuration `dropout = 1/2` the final
layer's dropout probability is `1/2`, not `0`, and in training mode such a
dropout really zeroes an input feature entry (while evaluation mode keeps
it). -/
theorem claim_C2_counterexample :
    ((GraphSAGEModel 500 64 3 2 Activation.relu ((1 : ℚ)/2)
        AggregatorType.gcn).getLast?.map SAGEConv.feat_drop = some (1/2))
    ∧ ¬ ((GraphSAGEModel 500 64 3 2 Activation.relu ((1 : ℚ)/2)
        AggregatorType.gcn).getLast?.map SAGEConv.feat_drop = some 0)
    ∧ featDropout Mode.train ((1 : ℚ)/2) (fun _ _ => 0) (fun _ _ => 1) 0 0 = 0
    ∧ featDropout Mode.eval ((1 : ℚ)/2) (fun _ _ => 0) (fun _ _ => 1) 0 0 = 1 := by
  refine ⟨?_, ?_, ?_, ?_⟩
  · simp only [GraphSAGEModel]
    rw [List.getLast?_concat]
    rfl
  · intro hcontra
    simp only [GraphSAGEModel] at hcontra
    rw [List.getLast?_concat] at hcontra
    norm_num [Option.map_some'] at hcontra
  · norm_num [featDropout]
  · rfl

/-- C2 (amended): the final layer of every constructed stack applies no
nonlinearity and every non-final layer is activated, but dropout is
configured with the same probability on the input features of every layer
— the final layer included — rather than on hidden layers only. -/
theorem claim_C2 (nfeat nhid nout nl : Nat) (act : Activation) (dp : ℚ)
    (ag : AggregatorType) (_hn : 1 ≤ nl) :
    ((GraphSAGEModel nfeat nhid nout nl act dp ag).getLast?.map SAGEConv.activation
        = some none)
    ∧ (∀ (i : Nat) (h1 : i < (GraphSAGEModel nfeat nhid nout nl act dp ag).length),
        i + 1 < (GraphSAGEModel nfeat nhid nout nl act dp ag).length →
          ((GraphSAGEModel nfeat nhid nout nl act dp ag).get ⟨i, h1⟩).activation
            = some act)
    ∧ ∀ L ∈ GraphSAGEModel nfeat nhid nout nl act dp ag, L.feat_drop = dp := by
  have hL := GraphSAGEModel_length nfeat nhid nout nl act dp ag (α := ℚ)
  refine ⟨?_, ?_, ?_⟩
  · simp only [GraphSAGEModel]
    rw [List.getLast?_concat]
    rfl
  · intro i h1 h2
    have h2' : i + 1 < (nl - 1) + 2 := by rw [hL] at h2; exact h2
    rw [GraphSAGEModel_get_activation]
    rw [if_pos (by omega : i ≤ nl - 1)]
  · intro L hmem
    simp only [GraphSAGEModel, List.mem_append, List.mem_singleton,
      List.mem_replicate] at hmem
    rcases hmem with (hA | hH) | hZ
    · rw [hA]
    · rw [hH.2]
    · rw [hZ]

/-- C5: inference-mode determinism — running the embedding stack twice in
evaluation mode on the same graph, parameters and input features yields
identical output tables, whatever the dropout randomness of each run,
because evaluation mode never consults it. -/
theorem claim_C5 (layers : List (SAGEConv ℚ × LayerParams ℚ)) (g : Graph)
    (features : Nat → Nat → ℚ) (r1 r2 : Nat → Nat → Nat → ℚ) :
    GraphSAGEModel.forward Mode.eval r1 layers g features =
      GraphSAGEModel.forward Mode.eval r2 layers g features := by
  induction layers generalizing features r1 r2 with
  | nil => rfl
  | cons LP rest ih =>
      show GraphSAGEModel.forward Mode.eval (fun i => r1 (i + 1)) rest g
          (SAGEConv.forward Mode.eval (r1 0) LP.1 LP.2 g features) = _
      have hfirst : SAGEConv.forward Mode.eval (r1 0) LP.1 LP.2 g features
          = SAGEConv.forward Mode.eval (r2 0) LP.1 LP.2 g features := rfl
      rw [hfirst]
      exact ih _ _ _

/-- C6: an isolated node receives the zero vector as its neighbor aggregate,
computed before the node's own embedding is folded in by the gcn-style
aggregate. -/
theorem claim_C6 (g : Graph) (h : Nat → Nat → ℚ) (v : Nat)
    (hiso : g.neighbors v = []) :
    (∀ j, neighborSum g h v j = 0)
    ∧ ∀ j, gcnAggregate g h v j = (0 + h v j) / (0 + 1) := by
  constructor
  · intro j
    simp [neighborSum, hiso]
  · intro j
    simp [gcnAggregate, neighborSum, hiso]

/-- Witness for C6: a one-node graph whose single node has no neighbors. -/
theorem claim_C6_witness :
    (∀ j, neighborSum ⟨1, fun _ => []⟩ (fun _ _ => (5 : ℚ)) 0 j = 0)
    ∧ ∀ j, gcnAggregate ⟨1, fun _ => []⟩ (fun _ _ => (5 : ℚ)) 0 j
        = (0 + (fun _ _ => (5 : ℚ)) 0 j) / (0 + 1) :=
  claim_C6 ⟨1, fun _ => []⟩ (fun _ _ => (5 : ℚ)) 0 rfl

/-- C7: the training loop performs exactly `n_epochs` iterations, each one a
train step immediately followed by a validation-accuracy computation, and
after the last iteration exactly one final test-accuracy computation: the
event trace is fully determined. -/
theorem claim_C7 (optStep : ModelState ℚ → ModelState ℚ) (g : Graph)
    (features : Nat → Nat → ℚ) (labels : Nat → Nat)
    (val_idx test_idx : List Nat) (numClasses n_epochs : Nat)
    (s0 : ModelState ℚ) :
    (trainingRun optStep g features labels val_idx test_idx numClasses n_epochs s0).1 =
      ((List.range n_epochs).map
        fun e => [LoopEvent.trainStep e, LoopEvent.validateStep e]).flatten
        ++ [LoopEvent.testEval] := by
  simp only [trainingRun]
  rw [trainingEpochs_trace, List.range_eq_range']

/-- C8: evaluation never writes a parameter — the state-passing form of
`NCEvaluate` returns its state unchanged — and across the loop the
parameters evolve only by iterating the optimizer update, which is
therefore the sole writer. -/
theorem claim_C8 (optStep : ModelState ℚ → ModelState ℚ) (g : Graph)
    (features : Nat → Nat → ℚ) (labels : Nat → Nat)
    (val_idx test_idx : List Nat) (numClasses : Nat) :
    (∀ (idx : List Nat) (s : ModelState ℚ),
        (NCEvaluateSt g features labels idx numClasses s).2 = s)
    ∧ (∀ (k epoch : Nat) (s : ModelState ℚ),
        (trainingEpochs optStep g features labels val_idx numClasses k epoch s).2
          = optStep^[k] s)
    ∧ ∀ (n : Nat) (s0 : ModelState ℚ),
        (trainingRun optStep g features labels val_idx test_idx numClasses n s0).2.2
          = optStep^[n] s0 := by
  refine ⟨fun _ _ => rfl, ?_, ?_⟩
  · intro k epoch s
    exact trainingEpochs_state optStep g features labels val_idx numClasses k epoch s
  · intro n s0
    simp only [trainingRun, NCEvaluateSt]
    exact trainingEpochs_state optStep g features labels val_idx numClasses n 0 s0

/-- C4: the loss computation and the evaluation fail with `EmptySubset`
exactly when their subset is empty; on every non-empty subset no such error
occurs and a value is returned. -/
theorem claim_C4 (mode : Mode) (rands : Nat → Nat → Nat → ℝ)
    (layers : List (SAGEConv ℝ × LayerParams ℝ)) (g : Graph)
    (features : Nat → Nat → ℝ) (labels : Nat → Nat)
    (train_idx test_idx : List Nat) (numClasses : Nat) :
    (NodeClassificationForwardE mode rands layers g features labels train_idx numClasses
        = Except.error NCError.EmptySubset ↔ train_idx = [])
    ∧ (NCEvaluateE layers g features labels test_idx numClasses
        = Except.error NCError.EmptySubset ↔ test_idx = []) := by
  constructor
  · by_cases hx : train_idx = [] <;> simp [NodeClassificationForwardE, hx]
  · by_cases hx : test_idx = [] <;> simp [NCEvaluateE, hx]

/-- Witness for C2 (amended) at the notebook's configuration. -/
theorem claim_C2_witness :
    ((GraphSAGEModel 500 64 3 2 Activation.relu ((1 : ℚ)/2)
        AggregatorType.gcn).getLast?.map SAGEConv.activation = some none)
    ∧ (∀ (i : Nat) (h1 : i < (GraphSAGEModel 500 64 3 2 Activation.relu ((1 : ℚ)/2)
        AggregatorType.gcn).length),
        i + 1 < (GraphSAGEModel 500 64 3 2 Activation.relu ((1 : ℚ)/2)
          AggregatorType.gcn).length →
          ((GraphSAGEModel 500 64 3 2 Activation.relu ((1 : ℚ)/2)
            AggregatorType.gcn).get ⟨i, h1⟩).activation = some Activation.relu)
    ∧ ∀ L ∈ GraphSAGEModel 500 64 3 2 Activation.relu ((1 : ℚ)/2)
        AggregatorType.gcn, L.feat_drop = (1 : ℚ)/2 :=
  claim_C2 500 64 3 2 Activation.relu ((1 : ℚ)/2) AggregatorType.gcn (by norm_num)

/-- C1: for a non-empty subset with labels in `[0, numClasses)`, the scalar
loss returned by `NodeClassification.forward` is the mean over the subset of
`-score[i, label[i]] + log (sum over c of exp score[i, c])`, where `score`
is the final embedding table produced by the GraphSage stack. -/
theorem claim_C1 (mode : Mode) (rands : Nat → Nat → Nat → ℝ)
    (layers : List (SAGEConv ℝ × LayerParams ℝ)) (g : Graph)
    (features : Nat → Nat → ℝ) (labels : Nat → Nat) (train_idx : List Nat)
    (numClasses : Nat) (_hne : train_idx ≠ [])
    (_hlab : ∀ i ∈ train_idx, labels i < numClasses) :
    NodeClassification.forward mode rands layers g features labels train_idx numClasses
      = (train_idx.map fun i =>
          -(GraphSAGEModel.forward mode rands layers g features i (labels i))
            + Real.log ((Finset.range numClasses).sum
                fun c => Real.exp
                  (GraphSAGEModel.forward mode rands layers g features i c))).sum
        / (train_idx.length : ℝ) := by
  simp only [NodeClassification.forward, CrossEntropyLoss, List.zip_map',
    List.map_map, List.length_map]
  rfl

/-- Witness for C1: a stack with no layers on a one-node graph, a single
training node with label `0` and one class. -/
theorem claim_C1_witness :
    NodeClassification.forward Mode.eval (fun _ _ _ => 0) [] ⟨1, fun _ => []⟩
        (fun _ _ => 0) (fun _ => 0) [0] 1
      = (([0] : List Nat).map fun i =>
          -(GraphSAGEModel.forward Mode.eval (fun _ _ _ => (0 : ℝ)) [] ⟨1, fun _ => []⟩
              (fun _ _ => 0) i ((fun _ => 0) i))
            + Real.log ((Finset.range 1).sum
                fun c => Real.exp
                  (GraphSAGEModel.forward Mode.eval (fun _ _ _ => (0 : ℝ)) []
                    ⟨1, fun _ => []⟩ (fun _ _ => 0) i c))).sum
        / (([0] : List Nat).length : ℝ) :=
  claim_C1 Mode.eval (fun _ _ _ => 0) [] ⟨1, fun _ => []⟩ (fun _ _ => 0)
    (fun _ => 0) [0] 1 (by simp) (by simp)

/-- C3: the evaluator predicts for each node of the subset the class of
maximal score with ties broken toward the lowest class index — the
predicted index is a maximizer, and every class scoring equally high has an
index at least as large — and on a non-empty subset it returns exactly the
fraction of nodes whose prediction equals the true label. -/
theorem claim_C3 (layers : List (SAGEConv ℚ × LayerParams ℚ)) (g : Graph)
    (features : Nat → Nat → ℚ) (labels : Nat → Nat) (test_idx : List Nat)
    (numClasses : Nat) (hC : 1 ≤ numClasses) (_hne : test_idx ≠ []) :
    (∀ i ∈ test_idx,
      torchArgmax
          (GraphSAGEModel.forward Mode.eval (fun _ _ _ => 0) layers g features i)
          numClasses < numClasses
      ∧ (∀ c < numClasses,
          GraphSAGEModel.forward Mode.eval (fun _ _ _ => 0) layers g features i c
            ≤ GraphSAGEModel.forward Mode.eval (fun _ _ _ => 0) layers g features i
                (torchArgmax
                  (GraphSAGEModel.forward Mode.eval (fun _ _ _ => 0) layers g features i)
                  numClasses))
      ∧ ∀ c < numClasses,
          GraphSAGEModel.forward Mode.eval (fun _ _ _ => 0) layers g features i c
              = GraphSAGEModel.forward Mode.eval (fun _ _ _ => 0) layers g features i
                  (torchArgmax
                    (GraphSAGEModel.forward Mode.eval (fun _ _ _ => 0) layers g features i)
                    numClasses) →
            torchArgmax
                (GraphSAGEModel.forward Mode.eval (fun _ _ _ => 0) layers g features i)
                numClasses ≤ c)
    ∧ NCEvaluate layers g features labels test_idx numClasses
        = ((test_idx.countP fun i =>
            decide (torchArgmax
                (GraphSAGEModel.forward Mode.eval (fun _ _ _ => 0) layers g features i)
                numClasses = labels i) : Nat) : ℚ)
          / (test_idx.length : ℚ) := by
  constructor
  · intro i hi
    refine ⟨?_, ?_, ?_⟩
    · have := argmaxUpTo_le
        (GraphSAGEModel.forward Mode.eval (fun _ _ _ => 0) layers g features i)
        (numClasses - 1)
      unfold torchArgmax
      omega
    · intro c hc
      exact le_argmaxUpTo _ (numClasses - 1) c (by omega)
    · intro c hc heq
      by_contra hgt
      push_neg at hgt
      exact absurd heq (ne_of_lt (argmaxUpTo_first _ (numClasses - 1) c hgt))
  · simp only [NCEvaluate, List.zip_map', List.length_map]
    rw [sum_indicator_eq_countP, List.countP_map]
    rfl

/-- Witness for C3: a stack with no layers on a one-node graph, one test
node with label `0` and one class. -/
theorem claim_C3_witness :
    (∀ i ∈ ([0] : List Nat),
      torchArgmax
          (GraphSAGEModel.forward Mode.eval (fun _ _ _ => 0) [] ⟨1, fun _ => []⟩
            (fun _ _ => (0 : ℚ)) i) 1 < 1
      ∧ (∀ c < 1,
          GraphSAGEModel.forward Mode.eval (fun _ _ _ => 0) [] ⟨1, fun _ => []⟩
              (fun _ _ => (0 : ℚ)) i c
            ≤ GraphSAGEModel.forward Mode.eval (fun _ _ _ => 0) [] ⟨1, fun _ => []⟩
                (fun _ _ => (0 : ℚ)) i
                (torchArgmax
                  (GraphSAGEModel.forward Mode.eval (fun _ _ _ => 0) [] ⟨1, fun _ => []⟩
                    (fun _ _ => (0 : ℚ)) i) 1))
      ∧ ∀ c < 1,
          GraphSAGEModel.forward Mode.eval (fun _ _ _ => 0) [] ⟨1, fun _ => []⟩
              (fun _ _ => (0 : ℚ)) i c
              = GraphSAGEModel.forward Mode.eval (fun _ _ _ => 0) [] ⟨1, fun _ => []⟩
                  (fun _ _ => (0 : ℚ)) i
                  (torchArgmax
                    (GraphSAGEModel.forward Mode.eval (fun _ _ _ => 0) [] ⟨1, fun _ => []⟩
                      (fun _ _ => (0 : ℚ)) i) 1) →
            torchArgmax
                (GraphSAGEModel.forward Mode.eval (fun _ _ _ => 0) [] ⟨1, fun _ => []⟩
                  (fun _ _ => (0 : ℚ)) i) 1 ≤ c)
    ∧ NCEvaluate [] ⟨1, fun _ => []⟩ (fun _ _ => (0 : ℚ)) (fun _ => 0) [0] 1
        = ((([0] : List Nat).countP fun i =>
            decide (torchArgmax
                (GraphSAGEModel.forward Mode.eval (fun _ _ _ => 0) [] ⟨1, fun _ => []⟩
                  (fun _ _ => (0 : ℚ)) i) 1 = (fun _ => 0) i) : Nat) : ℚ)
          / (([0] : List Nat).length : ℚ) :=
  claim_C3 [] ⟨1, fun _ => []⟩ (fun _ _ => (0 : ℚ)) (fun _ => 0) [0] 1
    (by norm_num) (by simp)
